import Mathlib

/-!
Verification of the cross-account Cloud Custodian orchestrator.

Shallow embedding of the policy-resolution, event-classification,
filter-building and execution logic of the repository:

* `lambda-functions/cloud-custodian/lambda_handler.py`
* `lambda-functions/cloud-custodian/event_filter_builder.py`
* `lambda-functions/cloud-custodian/cross_account_executor.py`
* `cross-account-implementation/src/lambda_handler.py`
* `cross-account-implementation/src/validator.py`

Python dictionaries are embedded as association lists (`List (String × α)`),
`dict.get` as `List.lookup`, Python string-truthiness as `≠ ""`, and
`list(set(xs))` as `pyDedup` (a deterministic choice of iteration
order; every theorem below is insensitive to that order).  All definitions
are computable so that concrete witnesses evaluate by `decide`/`rfl`.
-/

namespace Custodian

/-- Left-to-right non-overlapping removal of the substring `".yml"`,
character by character: the behaviour of Python `s.replace('.yml', '')`. -/
def stripYmlChars : List Char → List Char
  | '.' :: 'y' :: 'm' :: 'l' :: rest => stripYmlChars rest
  | c :: rest => c :: stripYmlChars rest
  | [] => []

/-- Python `s.replace('.yml', '')` on a source-file name. -/
def stripYml (s : String) : String := ⟨stripYmlChars s.data⟩

/-- Grouped result `{file_name: [policy_names]}`, kept in insertion order
like a Python dict. -/
abbrev Grouped := List (String × List String)

/-- One step of the grouping loop in `get_policies_for_event`
(`lambda_handler.py`): `policies_by_file.setdefault(file, []).append(name)`
with Python-dict insertion order. -/
def addToGroup (acc : Grouped) (file pname : String) : Grouped :=
  if acc.any (fun p => p.1 = file) then
    acc.map (fun p => if p.1 = file then (p.1, p.2 ++ [pname]) else p)
  else
    acc ++ [(file, [pname])]

/-- A `PolicyRef` entry of the mapping file: the fields the resolver reads. -/
structure PolicyRef where
  source_file : String
  policy_name : String
  deriving DecidableEq, Repr

/-- Per-tenant entry of `account_mapping`. -/
structure AccountConfig where
  name : Option String
  event_mapping : List (String × List PolicyRef)
  deriving DecidableEq, Repr

/-- The policy-mapping configuration loaded from object storage. -/
structure PolicyMapping where
  event_mapping : List (String × List PolicyRef)
  account_mapping : List (String × AccountConfig)
  deriving DecidableEq, Repr

/-- Grouping loop shared by both resolver implementations: group a list of
`PolicyRef`s by `source_file` (with `.yml` stripped), collecting the
`policy_name`s of each file. -/
def groupBySourceFile (refs : List PolicyRef) : Grouped :=
  refs.foldl (fun acc r => addToGroup acc (stripYml r.source_file) r.policy_name) []

/-- `get_policies_for_event` from
`lambda-functions/cloud-custodian/lambda_handler.py` (lines 109-153).
Only consults the tenant's own `event_mapping`; there is no fallback to the
global `event_mapping`. -/
def getPoliciesForEvent (account_id event_name : String)
    (m : PolicyMapping) : Grouped :=
  match m.account_mapping.lookup account_id with
  | none => []
  | some cfg =>
    match cfg.event_mapping.lookup event_name with
    | some refs => groupBySourceFile refs
    | none => []

/-- Result type of `get_policies_for_event` from
`cross-account-implementation/src/lambda_handler.py`: the tenant branch
returns a `list` of file names while the global branch returns a dict
`{file: [policy_names]}`. -/
inductive XacctLookup where
  | files (fs : List String)
  | byFile (g : Grouped)
  deriving DecidableEq, Repr

/-- Deterministic embedding of Python `list(set(xs))` (whose iteration
order is unspecified): a duplicate-free list with the same members. -/
def pyDedup {α : Type} [DecidableEq α] : List α → List α
  | [] => []
  | x :: xs =>
    let r := pyDedup xs
    if x ∈ r then r else x :: r

/-- `get_policies_for_event` from
`cross-account-implementation/src/lambda_handler.py` (lines 133-179).
Tenant branch: `list(set(source files))` (embedded as `pyDedup`);
otherwise fall back to the global `event_mapping`, grouped by file;
otherwise the empty dict. -/
def getPoliciesForEventXacct (account_id event_name : String)
    (m : PolicyMapping) : XacctLookup :=
  let fallback : XacctLookup :=
    match m.event_mapping.lookup event_name with
    | some refs => .byFile (groupBySourceFile refs)
    | none => .byFile []
  match m.account_mapping.lookup account_id with
  | some cfg =>
    match cfg.event_mapping.lookup event_name with
    | some refs => .files (pyDedup (refs.map (fun r => stripYml r.source_file)))
    | none => fallback
  | none => fallback

/-! ## Region extraction (`cross_account_executor.py`, lines 746-775) -/

/-- The `detail` fields read by `extract_region_from_event`. -/
structure RegionDetail where
  awsRegion : Option String
  regionField : Option String
  deriving DecidableEq, Repr

/-- The event fields read by `extract_region_from_event`; `detail` is `none`
when absent or not a dict. -/
structure RegionEvent where
  region : Option String
  detail : Option RegionDetail
  deriving DecidableEq, Repr

/-- `extract_region_from_event` from
`lambda-functions/cloud-custodian/cross_account_executor.py` (lines
746-775): top-level `region`, else `detail.awsRegion`, else `detail.Region`,
else the literal default `us-east-1`. -/
def extractRegionFromEvent (e : RegionEvent) : String :=
  match e.region with
  | some r => r
  | none =>
    match e.detail with
    | some d =>
      match d.awsRegion with
      | some r => r
      | none =>
        match d.regionField with
        | some r => r
        | none => "us-east-1"
    | none => "us-east-1"

/-! ## String primitives

Character-level embeddings of the Python string operations the code uses
(`in`, `.startswith`, `.lower`, `.split`, `.join`), written so that the
kernel can evaluate them on concrete inputs. -/

/-- `prefCL p l` is true when `p` is a prefix of `l` (Python `startswith`). -/
def prefCL : List Char → List Char → Bool
  | [], _ => true
  | _ :: _, [] => false
  | a :: as, b :: bs => a = b && prefCL as bs

/-- `containsSub needle hay` is true when `needle` occurs contiguously in
`hay` (Python `needle in hay`). -/
def containsSub (needle : List Char) : List Char → Bool
  | [] => prefCL needle []
  | c :: t => prefCL needle (c :: t) || containsSub needle t

/-- Python `sub in s`. -/
def strContains (s sub : String) : Bool := containsSub sub.data s.data

/-- Python `s.startswith(p)`. -/
def strStartsWith (s p : String) : Bool := prefCL p.data s.data

/-- Python `s.lower()` (ASCII case folding). -/
def strLower (s : String) : String := ⟨s.data.map Char.toLower⟩

/-- Python `s.split(sep)` for a one-character separator: splits at every
occurrence, keeping empty pieces. -/
def splitCharList (sep : Char) : List Char → List (List Char)
  | [] => [[]]
  | c :: rest =>
    let r := splitCharList sep rest
    if c = sep then [] :: r
    else
      match r with
      | h :: t => (c :: h) :: t
      | [] => [[c]]

/-- Python `s.split(sep)` for a one-character separator. -/
def splitOnChar (sep : Char) (s : String) : List String :=
  (splitCharList sep s.data).map (fun cs => ⟨cs⟩)

/-- Python `sep.join(xs)`. -/
def joinSep (sep : String) : List String → String
  | [] => ""
  | a :: as => as.foldl (fun acc x => acc ++ sep ++ x) a

/-! ## Resource field mappings (`event_filter_builder.py`, lines 32-227) -/

/-- `ARN_FIELD_MAPPING` from `event_filter_builder.py` (lines 32-130). -/
def ARN_FIELD_MAPPING : List (String × String) := [
  ("aws.ec2", "Arn"), ("aws.lambda", "FunctionArn"),
  ("aws.lambda-layer", "LayerVersionArn"), ("aws.ecs-cluster", "clusterArn"),
  ("aws.ecs-service", "serviceArn"), ("aws.ecs-task", "taskArn"),
  ("aws.ecs-task-definition", "taskDefinitionArn"), ("aws.eks", "arn"),
  ("aws.app-elb", "LoadBalancerArn"), ("aws.elb", "LoadBalancerArn"),
  ("aws.s3", "Arn"), ("aws.ebs", "VolumeArn"),
  ("aws.ebs-snapshot", "SnapshotArn"), ("aws.efs", "FileSystemArn"),
  ("aws.dynamodb-table", "TableArn"),
  ("aws.rds", "DBInstanceArn"), ("aws.rds-cluster", "DBClusterArn"),
  ("aws.rds-snapshot", "DBSnapshotArn"), ("aws.elasticache", "ARN"),
  ("aws.elasticache-cluster", "ARN"), ("aws.elasticache-snapshot", "ARN"),
  ("aws.timestream-database", "Arn"), ("aws.timestream-table", "Arn"),
  ("aws.vpc", "VpcArn"), ("aws.subnet", "SubnetArn"),
  ("aws.security-group", "GroupArn"), ("aws.network-acl", "NetworkAclArn"),
  ("aws.internet-gateway", "InternetGatewayArn"),
  ("aws.nat-gateway", "NatGatewayArn"), ("aws.vpc-endpoint", "VpcEndpointArn"),
  ("aws.network-interface", "NetworkInterfaceArn"),
  ("aws.iam-user", "Arn"), ("aws.iam-role", "Arn"), ("aws.iam-policy", "Arn"),
  ("aws.iam-group", "Arn"), ("aws.kms", "Arn"), ("aws.kms-key", "KeyArn"),
  ("aws.acm-certificate", "CertificateArn"), ("aws.secretsmanager", "ARN"),
  ("aws.secrets-manager", "ARN"), ("aws.cognito-user-pool", "Arn"),
  ("aws.cognito-identity-pool", "IdentityPoolArn"),
  ("aws.sns", "TopicArn"), ("aws.sqs", "QueueArn"), ("aws.events", "Arn"),
  ("aws.event-bus", "Arn"), ("aws.event-rule", "Arn"),
  ("aws.kinesis", "StreamARN"), ("aws.kinesis-firehose", "DeliveryStreamARN"),
  ("aws.elasticsearch", "ARN"), ("aws.opensearch", "ARN"),
  ("aws.glue-database", "DatabaseArn"), ("aws.glue-table", "TableArn"),
  ("aws.codecommit", "Arn"), ("aws.codebuild", "Arn"),
  ("aws.codepipeline", "Arn"),
  ("aws.ecr", "repositoryArn"), ("aws.ecr-repository", "repositoryArn"),
  ("aws.cloudfront", "ARN"), ("aws.cloudfront-distribution", "ARN"),
  ("aws.distribution", "ARN"),
  ("aws.waf", "ARN"), ("aws.waf-regional", "ARN"), ("aws.wafv2", "ARN"),
  ("aws.shield-protection", "ProtectionArn"),
  ("aws.guardduty-detector", "DetectorArn"),
  ("aws.inspector-assessment-template", "Arn"),
  ("aws.securityhub-hub", "HubArn"), ("aws.config-rule", "ConfigRuleArn"),
  ("aws.cloudwatch-alarm", "AlarmArn"), ("aws.cloudwatch-log-group", "arn"),
  ("aws.ses-identity", "IdentityArn")]

/-- `ID_FIELD_MAPPING` from `event_filter_builder.py` (lines 133-177). -/
def ID_FIELD_MAPPING : List (String × String) := [
  ("aws.ec2", "InstanceId"), ("aws.ami", "ImageId"),
  ("aws.lambda", "FunctionName"), ("aws.ecs-cluster", "clusterArn"),
  ("aws.eks", "name"),
  ("aws.ebs", "VolumeId"), ("aws.ebs-snapshot", "SnapshotId"),
  ("aws.efs", "FileSystemId"),
  ("aws.rds", "DBInstanceIdentifier"), ("aws.rds-cluster", "DBClusterIdentifier"),
  ("aws.rds-snapshot", "DBSnapshotIdentifier"),
  ("aws.elasticache", "CacheClusterId"),
  ("aws.elasticache-cluster", "CacheClusterId"),
  ("aws.dynamodb-table", "TableName"),
  ("aws.vpc", "VpcId"), ("aws.subnet", "SubnetId"),
  ("aws.security-group", "GroupId"), ("aws.network-acl", "NetworkAclId"),
  ("aws.internet-gateway", "InternetGatewayId"),
  ("aws.nat-gateway", "NatGatewayId"), ("aws.vpc-endpoint", "VpcEndpointId"),
  ("aws.network-interface", "NetworkInterfaceId"),
  ("aws.kms", "KeyId"), ("aws.kms-key", "KeyId"),
  ("aws.acm-certificate", "CertificateArn"),
  ("aws.cloudfront", "Id"), ("aws.cloudfront-distribution", "Id"),
  ("aws.distribution", "Id"),
  ("aws.cloudwatch-alarm", "AlarmName"),
  ("aws.cloudwatch-log-group", "logGroupName")]

/-- `NAME_FIELD_MAPPING` from `event_filter_builder.py` (lines 180-227). -/
def NAME_FIELD_MAPPING : List (String × String) := [
  ("aws.s3", "Name"),
  ("aws.iam-user", "UserName"), ("aws.iam-role", "RoleName"),
  ("aws.iam-policy", "PolicyName"), ("aws.iam-group", "GroupName"),
  ("aws.lambda", "FunctionName"), ("aws.eks", "name"),
  ("aws.dynamodb-table", "TableName"), ("aws.rds", "DBInstanceIdentifier"),
  ("aws.rds-cluster", "DBClusterIdentifier"),
  ("aws.sns", "TopicName"), ("aws.sqs", "QueueName"),
  ("aws.kinesis", "StreamName"), ("aws.kinesis-firehose", "DeliveryStreamName"),
  ("aws.elasticsearch", "DomainName"), ("aws.opensearch", "DomainName"),
  ("aws.codecommit", "repositoryName"), ("aws.ecr", "repositoryName"),
  ("aws.cognito-user-pool", "Name"), ("aws.secretsmanager", "Name"),
  ("aws.secrets-manager", "Name"), ("aws.kms", "KeyId"),
  ("aws.cloudwatch-alarm", "AlarmName"),
  ("aws.cloudwatch-log-group", "logGroupName"), ("aws.ses-identity", "Identity"),
  ("aws.event-bus", "Name"), ("aws.event-rule", "Name")]

/-! ## Filter builder (`event_filter_builder.py`, lines 505-1232) -/

/-- The `generic_resources` collections of an `event_info`. -/
structure GenericResources where
  arns : List String
  ids : List String
  names : List String
  deriving DecidableEq, Repr

/-- A `{'type': 'value', 'key': k, 'value': v}` policy filter. -/
structure Filter where
  type : String
  key : String
  value : String
  deriving DecidableEq, Repr

/-- The `filtered_ids` per-type prefix filtering of
`build_filters_and_resources` (`event_filter_builder.py`, lines 541-554):
EC2 instances keep only `i-*` IDs, AMIs `ami-*`, EBS volumes `vol-*`, EBS
snapshots `snap-*`; all other types keep the list unchanged. -/
def filteredIdsFor (rt : String) (ids : List String) : List String :=
  if rt = "aws.ec2" then ids.filter (fun i => strStartsWith i "i-")
  else if rt = "aws.ami" then ids.filter (fun i => strStartsWith i "ami-")
  else if rt = "aws.ebs" then ids.filter (fun i => strStartsWith i "vol-")
  else if rt = "aws.ebs-snapshot" then ids.filter (fun i => strStartsWith i "snap-")
  else ids

/-- The three filter strategies of `build_filters_and_resources`
(`event_filter_builder.py`, lines 530-563): ARN first (the first ARN of the
list, with the field defaulting to `"Arn"`), else ID with per-type prefix
filtering, else name. -/
def primaryFilters (g : GenericResources) (rt : String) : List Filter :=
  if g.arns ≠ [] then
    match g.arns with
    | [] => []
    | a :: _ => [⟨"value", (ARN_FIELD_MAPPING.lookup rt).getD "Arn", a⟩]
  else if g.ids ≠ [] then
    match ID_FIELD_MAPPING.lookup rt with
    | none => []
    | some idField =>
      match filteredIdsFor rt g.ids with
      | [] => []
      | x :: _ => [⟨"value", idField, x⟩]
  else if g.names ≠ [] then
    match NAME_FIELD_MAPPING.lookup rt with
    | none => []
    | some nameField =>
      match g.names with
      | [] => []
      | n :: _ => [⟨"value", nameField, n⟩]
  else []

/-- Result of `build_filters_and_resources`: the filter list and the
optional `provided_resources`. -/
structure BuildResult where
  filters : List Filter
  provided_resources : Option (List String)
  deriving DecidableEq, Repr

/-- `build_filters_and_resources` (`event_filter_builder.py`, lines
505-1173).  The network-dependent prefetch pass (lines 575-1147, a chain of
cloud-API `describe` calls each wrapped in `try/except`) is abstracted by
its outcome `prefetched`: `none` when no branch assigned
`provided_resources`, `some l` when one assigned the list `l` (which several
branches can leave empty).  After the pass: a truthy `provided_resources`
clears the filters; otherwise, when no primary filter was built, naive
equality filters on `Id`/`Name`/`Arn` are appended for every identifier. -/
def buildFiltersAndResources (g : GenericResources) (rt : String)
    (prefetched : Option (List String)) : BuildResult :=
  let filters := primaryFilters g rt
  if prefetched.getD [] ≠ [] then
    ⟨[], prefetched⟩
  else
    let filters :=
      if filters = [] then
        g.ids.map (fun i => Filter.mk "value" "Id" i)
          ++ g.names.map (fun n => Filter.mk "value" "Name" n)
          ++ g.arns.map (fun a => Filter.mk "value" "Arn" a)
      else filters
    ⟨filters, prefetched⟩

/-- `arn_matches_resource` type→service table (`event_filter_builder.py`,
lines 1190-1222). -/
def ARN_TYPE_MAPPING : List (String × List String) := [
  ("aws.ec2", ["ec2"]),
  ("aws.app-elb", ["elasticloadbalancing"]),
  ("aws.elb", ["elasticloadbalancing"]),
  ("aws.rds", ["rds"]), ("aws.rds-cluster", ["rds"]),
  ("aws.s3", ["s3"]), ("aws.lambda", ["lambda"]),
  ("aws.iam-role", ["iam"]), ("aws.iam-user", ["iam"]),
  ("aws.iam-policy", ["iam"]), ("aws.dynamodb-table", ["dynamodb"]),
  ("aws.kinesis", ["kinesis"]), ("aws.kinesis-firehose", ["firehose"]),
  ("aws.sns", ["sns"]), ("aws.sqs", ["sqs"]), ("aws.kms", ["kms"]),
  ("aws.cloudfront", ["cloudfront"]), ("aws.elasticache", ["elasticache"]),
  ("aws.elasticsearch", ["es", "elasticsearch"]),
  ("aws.opensearch", ["es", "opensearch"]),
  ("aws.efs", ["elasticfilesystem"]), ("aws.ecr", ["ecr"]),
  ("aws.ecs", ["ecs"]), ("aws.eks", ["eks"]),
  ("aws.secretsmanager", ["secretsmanager"]), ("aws.acm", ["acm"]),
  ("aws.wafv2", ["wafv2"]), ("aws.cognito-user-pool", ["cognito-idp"]),
  ("aws.codecommit", ["codecommit"]), ("aws.codebuild", ["codebuild"]),
  ("aws.config-rule", ["config"])]

/-- `arn_matches_resource` (`event_filter_builder.py`, lines 1176-1232):
true when some expected service of the type occurs as `:{service}:` or
`::{service}/` inside the lowercased ARN, or when the type has no entry in
the table at all. -/
def arnMatchesResource (arn rt : String) : Bool :=
  let arnLower := strLower arn
  let expectedServices := (ARN_TYPE_MAPPING.lookup rt).getD []
  if expectedServices.any (fun s =>
      strContains arnLower (":" ++ s ++ ":")
        || strContains arnLower ("::" ++ s ++ "/")) then
    true
  else
    expectedServices.length = 0

/-! ## Python dict assignment -/

/-- Python `d[k] = v` on a dict embedded as an association list: update the
entry in place when the key exists, append it otherwise. -/
def dictSet {α : Type} (d : List (String × α)) (k : String) (v : α) :
    List (String × α) :=
  if d.any (fun p => p.1 = k) then d.map (fun p => if p.1 = k then (k, v) else p)
  else d ++ [(k, v)]

/-! ## Policy execution (`cross_account_executor.py`, lines 283-658) -/

/-- A resource descriptor: its scalar fields, and its `Tags` list when the
`'Tags'` key is present (`none` when absent).  Every descriptor handled by
the executor is a dict, so the `isinstance(resource, dict)` guards of the
source are always true here. -/
structure Res where
  fields : List (String × String)
  tags : Option (List (String × String))
  deriving DecidableEq, Repr

/-- Python `resource[k] = v` on a descriptor's scalar fields. -/
def setField (r : Res) (k v : String) : Res :=
  { r with fields := dictSet r.fields k v }

/-- The pre-execution enrichment loop of `_execute_custodian_policy`
(`cross_account_executor.py`, lines 370-384): set `c7n:CreatorName` on every
pre-fetched descriptor; for an `aws.ec2` policy, when the descriptor already
carries a `Tags` key and no `c7n:CreatorName` tag, also append the
`{Key, Value}` tag entry. -/
def enrichProvidedResources (policyResource creator : String)
    (rs : List Res) : List Res :=
  rs.map fun r =>
    let r := setField r "c7n:CreatorName" creator
    if policyResource = "aws.ec2" then
      match r.tags with
      | some ts =>
        if ts.any (fun t => t.1 = "c7n:CreatorName") then r
        else { r with tags := some (ts ++ [("c7n:CreatorName", creator)]) }
      | none => r
    else r

/-- Observable phases of `_execute_custodian_policy`, in execution order.
`runPolicy` stands for `p.run()`, which evaluates filters *and executes the
policy's actions* internally. -/
inductive ExecStep where
  | enrichProvided
  | applyFilters
  | execActions
  | runPolicy
  | enrichMatched
  deriving DecidableEq, Repr

/-- The matched resources of a policy execution together with the ordered
trace of its phases. -/
structure ExecOutcome where
  matched : List Res
  trace : List ExecStep
  deriving DecidableEq, Repr

/-- The enumeration path of `_execute_custodian_policy`
(`cross_account_executor.py`, lines 607-617): `p.run()` (actions included),
then — only when a creator is known and resources matched — set
`c7n:CreatorName` on each matched descriptor.  No `Tags` entry is touched
on this path. -/
def runEnumeratedPath (creator : Option String) (enumerated : List Res) :
    ExecOutcome :=
  match creator with
  | some c =>
    if enumerated ≠ [] then
      ⟨enumerated.map (fun r => setField r "c7n:CreatorName" c),
       [.runPolicy, .enrichMatched]⟩
    else ⟨enumerated, [.runPolicy]⟩
  | none => ⟨enumerated, [.runPolicy]⟩

/-- `_execute_custodian_policy` (`cross_account_executor.py`, lines
364-631), abstracted over its collaborators: `provided` is the
`provided_resources` returned by the filter builder, `filterFn` is the
engine's `rm.filter_resources`, and `enumerated` is the matched set a plain
`p.run()` would produce.  A truthy `provided_resources` takes the
pre-fetched path (enrich, filter, then actions when matched and not
dry-run); `none` or an empty list takes the enumeration path. -/
def executeCustodianPolicy (policyResource : String) (creator : Option String)
    (provided : Option (List Res)) (filterFn : List Res → List Res)
    (enumerated : List Res) (dryrun : Bool) : ExecOutcome :=
  match provided with
  | some rs =>
    if rs = [] then runEnumeratedPath creator enumerated
    else
      match creator with
      | some c =>
        let matched := filterFn (enrichProvidedResources policyResource c rs)
        ⟨matched, [.enrichProvided, .applyFilters]
          ++ (if matched ≠ [] ∧ dryrun = false then [.execActions] else [])⟩
      | none =>
        let matched := filterFn rs
        ⟨matched, [.applyFilters]
          ++ (if matched ≠ [] ∧ dryrun = false then [.execActions] else [])⟩
  | none => runEnumeratedPath creator enumerated

/-! ## Listener-ARN reconstruction (`cross_account_executor.py`, lines
419-438) -/

/-- The ALB-ARN reconstruction of `_execute_custodian_policy`: split the
listener ARN on `':'`, take element 5 (`none` models the caught
`IndexError` when there are fewer parts), split it on `'/'`, and rebuild
`':'.join(parts[:5]) + ':loadbalancer/' + '/'.join(resource_parts[1:4])`. -/
def extractLbArnFromListener (listenerArn : String) : Option String :=
  let parts := splitOnChar ':' listenerArn
  match parts.get? 5 with
  | none => none
  | some resourcePart =>
    let resourceParts := splitOnChar '/' resourcePart
    some (joinSep ":" (parts.take 5) ++ ":loadbalancer/"
      ++ joinSep "/" ((resourceParts.drop 1).take 3))

/-- The listener-ARN handling of `_execute_custodian_policy`: when a truthy
`listener_arn` is present and the policy's resource is `aws.app-elb`,
prepend a `LoadBalancerArn` filter with the reconstructed load-balancer
ARN; on reconstruction failure (caught exception) leave the filters
unchanged. -/
def applyListenerArnFilter (listenerArn : Option String)
    (policyResource : String) (filters : List Filter) : List Filter :=
  match listenerArn with
  | none => filters
  | some la =>
    if la ≠ "" ∧ policyResource = "aws.app-elb" then
      match extractLbArnFromListener la with
      | some lbArn => ⟨"value", "LoadBalancerArn", lbArn⟩ :: filters
      | none => filters
    else filters

/-! ## SQS invocation-ID interceptor (`cross_account_executor.py`, lines
541-569, and `lambda_handler.py`, lines 167-173) -/

/-- An SQS message attribute `{StringValue, DataType}`. -/
structure MessageAttribute where
  stringValue : String
  dataType : String
  deriving DecidableEq, Repr

/-- The parameters of a botocore API call: the `MessageAttributes` dict
(`none` when the key is absent) and the remaining parameters, which the
interceptor never touches. -/
structure ApiParams where
  messageAttributes : Option (List (String × MessageAttribute))
  rest : List (String × String)
  deriving DecidableEq, Repr

/-- `make_api_call_with_invocation_id` (`cross_account_executor.py`, lines
552-566): for an SQS `SendMessage` with the correlation env var set, ensure
`MessageAttributes` exists and set `InvocationId` to the *current* env
value before delegating; the returned parameters are the ones handed to the
original `_make_api_call` (the underlying publish). -/
def makeApiCallWithInvocationId (envInvocationId : Option String)
    (operationName serviceName : String) (apiParams : ApiParams) : ApiParams :=
  if operationName = "SendMessage" ∧ serviceName = "sqs" then
    match envInvocationId with
    | some currentId =>
      if currentId ≠ "" then
        { apiParams with
          messageAttributes :=
            some (dictSet (apiParams.messageAttributes.getD [])
              "InvocationId" ⟨currentId, "String"⟩) }
      else apiParams
    | none => apiParams
  else apiParams

/-- The handler's invocation-start assignment (`lambda_handler.py`, lines
167-173): `os.environ['C7N_INVOCATION_ID'] = context.aws_request_id` when a
truthy request ID is available. -/
def setInvocationIdEnv (awsRequestId : Option String)
    (env : List (String × String)) : List (String × String) :=
  match awsRequestId with
  | some rid => if rid ≠ "" then dictSet env "C7N_INVOCATION_ID" rid else env
  | none => env

/-- The parameters that reach the underlying botocore publish for an SQS
`SendMessage` issued during policy execution: the interceptor is installed
(`cross_account_executor.py`, lines 543-569) exactly when
`C7N_INVOCATION_ID` is truthy, and every `SendMessage` then flows through
`make_api_call_with_invocation_id`. -/
def sqsSendParams (env : List (String × String)) (apiParams : ApiParams) :
    ApiParams :=
  match env.lookup "C7N_INVOCATION_ID" with
  | some invocationId =>
    if invocationId ≠ "" then
      makeApiCallWithInvocationId (env.lookup "C7N_INVOCATION_ID")
        "SendMessage" "sqs" apiParams
    else apiParams
  | none => apiParams

/-! ## Event classification and resource extraction
(`event_filter_builder.py`, lines 234-498, and `validator.py`) -/

/-- A JSON value as walked by the generic extractor: strings are
classified, dicts and lists are recursed into, and every other leaf
(number, bool, null) is ignored. -/
inductive J where
  | str (s : String)
  | obj (kvs : List (String × J))
  | arr (xs : List J)
  | other
  deriving Repr

/-- An entry of a CloudTrail `detail.resources` array; only its `'ARN'` key
is read. -/
structure CTResource where
  arn : Option String
  deriving DecidableEq, Repr

/-- `detail.resource.instanceDetails` of a GuardDuty finding. -/
structure GDInstanceDetails where
  instanceId : Option String
  deriving DecidableEq, Repr

/-- `detail.resource.accessKeyDetails` of a GuardDuty finding. -/
structure GDAccessKeyDetails where
  userName : Option String
  deriving DecidableEq, Repr

/-- An entry of `detail.resource.s3BucketDetails` of a GuardDuty finding. -/
structure GDBucketDetail where
  name : Option String
  arn : Option String
  deriving DecidableEq, Repr

/-- `detail.resource.eksClusterDetails` of a GuardDuty finding. -/
structure GDClusterDetails where
  name : Option String
  arn : Option String
  deriving DecidableEq, Repr

/-- The `detail.resource` object of a GuardDuty finding; each field is
`none` when its key is absent. -/
structure GDResource where
  instanceDetails : Option GDInstanceDetails
  accessKeyDetails : Option GDAccessKeyDetails
  s3BucketDetails : Option (List GDBucketDetail)
  eksClusterDetails : Option GDClusterDetails
  deriving DecidableEq, Repr

/-- An entry of `Resources[*]` inside a Security Hub finding. -/
structure SHResource where
  id : Option String
  deriving DecidableEq, Repr

/-- A Security Hub finding: its `Resources` array and `Type`. -/
structure SHFinding where
  resources : List SHResource
  ftype : String
  deriving DecidableEq, Repr

/-- `detail.configurationItem` of a Config event; `arnUpper`/`arnLower` are
its `'ARN'`/`'arn'` keys. -/
structure ConfigItem where
  arnUpper : Option String
  arnLower : Option String
  resourceName : Option String
  deriving DecidableEq, Repr

/-- The `detail` keys read by `detect_event_source` and the four per-source
parsers.  An absent key is `none`; `requestParameters`/`responseElements`
are string-valued dicts (the keys the CloudTrail parser looks up hold
string identifiers).  Dict keys whose values the code copies verbatim into
metadata fields (`userIdentity`, `eventTime`, …) are not represented: no
theorem reads them. -/
structure EventDetail where
  eventName : Option String
  eventSource : Option String
  requestParameters : Option (List (String × String))
  responseElements : Option (List (String × String))
  ctResources : List CTResource
  gdType : Option String
  severity : Option Nat
  resource : Option GDResource
  findings : Option (List SHFinding)
  configRuleName : Option String
  resourceType : Option String
  resourceId : Option String
  configurationItem : Option ConfigItem
  deriving DecidableEq, Repr

/-- The `detail` default `{}`: every key absent. -/
def emptyDetail : EventDetail :=
  ⟨none, none, none, none, [], none, none, none, none, none, none, none, none⟩

/-- An inbound EventBridge event as read by the classifier: top-level
`source`, `detail-type` and `detail`. -/
structure CloudEvent where
  source : Option String
  detailType : Option String
  detail : Option EventDetail
  deriving DecidableEq, Repr

/-- The `EventSource` enum of `event_filter_builder.py` (lines 18-24). -/
inductive EventSource where
  | cloudtrail
  | guardduty
  | securityhub
  | config
  | unknown
  deriving DecidableEq, Repr

/-- `detect_event_source` (`event_filter_builder.py`, lines 438-471):
dispatch on the top-level `source`/`detail-type`, then on structural hints
in `detail`, else `unknown`. -/
def detectEventSource (e : CloudEvent) : EventSource :=
  let source := e.source.getD ""
  let detailType := e.detailType.getD ""
  if source = "aws.cloudtrail" ∨ strContains (strLower source) "cloudtrail" then
    .cloudtrail
  else if source = "aws.guardduty" ∨ detailType = "GuardDuty Finding" then
    .guardduty
  else if source = "aws.securityhub"
      ∨ detailType = "Security Hub Findings - Imported" then
    .securityhub
  else if source = "aws.config" ∨ strStartsWith detailType "Config" then
    .config
  else
    let detail := e.detail.getD emptyDetail
    if detail.eventName.isSome ∧ detail.eventSource.isSome then .cloudtrail
    else if detail.gdType.isSome ∧ detail.severity.isSome
        ∧ detail.resource.isSome then .guardduty
    else if detail.findings.isSome then .securityhub
    else if detail.configRuleName.isSome ∨ detail.resourceType.isSome then
      .config
    else .unknown

/-- Python truthiness of an optional string value. -/
def truthy (o : Option String) : Bool := o.getD "" ≠ ""

/-- `[value] if key in d and d[key] else []` for a string-valued dict. -/
def truthyLookup (d : List (String × String)) (k : String) : List String :=
  match d.lookup k with
  | some v => if v ≠ "" then [v] else []
  | none => []

/-- `parse_cloudtrail_event` (`event_filter_builder.py`, lines 234-290):
ARNs from `detail.resources[*].ARN` then from the five ARN key spellings
(response elements before request parameters for each key), IDs and names
from their fixed key lists likewise.  The metadata keys of the returned
dict (`event_name`, `event_source`, `user_identity`) are not represented.
No deduplication is performed. -/
def parseCloudtrailEvent (e : CloudEvent) : GenericResources :=
  let detail := e.detail.getD emptyDetail
  let requestParams := detail.requestParameters.getD []
  let responseElems := detail.responseElements.getD []
  let resourceArns := detail.ctResources.foldl
    (fun acc r => acc ++ (match r.arn with
      | some a => if a ≠ "" then [a] else []
      | none => [])) []
  let arnKeys := ["arn", "Arn", "ARN", "resourceArn", "ResourceArn"]
  let arns := arnKeys.foldl
    (fun acc k => acc ++ truthyLookup responseElems k ++ truthyLookup requestParams k)
    resourceArns
  let idKeys := ["instanceId", "volumeId", "snapshotId", "imageId", "groupId",
    "vpcId", "subnetId", "keyId", "clusterId", "clusterName"]
  let ids := idKeys.foldl
    (fun acc k => acc ++ truthyLookup responseElems k ++ truthyLookup requestParams k)
    []
  let nameKeys := ["bucketName", "functionName", "userName", "roleName",
    "streamName", "topicName", "queueName", "repositoryName"]
  let names := nameKeys.foldl
    (fun acc k => acc ++ truthyLookup responseElems k ++ truthyLookup requestParams k)
    []
  ⟨arns, ids, names⟩

/-- `parse_guardduty_finding` (`event_filter_builder.py`, lines 293-350):
instance IDs, access-key user names, bucket names/ARNs and EKS cluster
names/ARNs from the embedded `resource` object.  The `finding_type` and
`severity` metadata keys are not represented. -/
def parseGuarddutyFinding (e : CloudEvent) : GenericResources :=
  let detail := e.detail.getD emptyDetail
  match detail.resource with
  | none => ⟨[], [], []⟩
  | some r =>
    let ids := match r.instanceDetails with
      | some inst => (match inst.instanceId with
        | some i => if i ≠ "" then [i] else []
        | none => [])
      | none => []
    let akNames := match r.accessKeyDetails with
      | some ak => (match ak.userName with
        | some u => if u ≠ "" then [u] else []
        | none => [])
      | none => []
    let bucketNames := (r.s3BucketDetails.getD []).foldl
      (fun acc b => acc ++ (match b.name with
        | some n => if n ≠ "" then [n] else []
        | none => [])) []
    let bucketArns := (r.s3BucketDetails.getD []).foldl
      (fun acc b => acc ++ (match b.arn with
        | some a => if a ≠ "" then [a] else []
        | none => [])) []
    let eksNames := match r.eksClusterDetails with
      | some c => (match c.name with
        | some n => if n ≠ "" then [n] else []
        | none => [])
      | none => []
    let eksArns := match r.eksClusterDetails with
      | some c => (match c.arn with
        | some a => if a ≠ "" then [a] else []
        | none => [])
      | none => []
    ⟨bucketArns ++ eksArns, ids, akNames ++ bucketNames ++ eksNames⟩

/-- `parse_securityhub_finding` (`event_filter_builder.py`, lines 353-393):
classify each `Resources[*].Id` of each finding as ARN (`arn:` prefix), ID
(contains `/` or `:`) or name.  The `finding_types` metadata key is not
represented. -/
def parseSecurityhubFinding (e : CloudEvent) : GenericResources :=
  let detail := e.detail.getD emptyDetail
  let findings := detail.findings.getD []
  findings.foldl
    (fun acc f => f.resources.foldl
      (fun acc r =>
        match r.id with
        | some rid =>
          if rid ≠ "" then
            if strStartsWith rid "arn:" then ⟨acc.arns ++ [rid], acc.ids, acc.names⟩
            else if strContains rid "/" ∨ strContains rid ":" then
              ⟨acc.arns, acc.ids ++ [rid], acc.names⟩
            else ⟨acc.arns, acc.ids, acc.names ++ [rid]⟩
          else acc
        | none => acc)
      acc)
    ⟨[], [], []⟩

/-- `parse_config_event` (`event_filter_builder.py`, lines 396-435):
`resourceId` classified by `arn:` prefix, then the configuration item's
`ARN or arn` and `resourceName`.  The `resource_type` and `compliance_type`
metadata keys are not represented. -/
def parseConfigEvent (e : CloudEvent) : GenericResources :=
  let detail := e.detail.getD emptyDetail
  let fromId : GenericResources :=
    match detail.resourceId with
    | some rid =>
      if rid ≠ "" then
        if strStartsWith rid "arn:" then ⟨[rid], [], []⟩ else ⟨[], [rid], []⟩
      else ⟨[], [], []⟩
    | none => ⟨[], [], []⟩
  match detail.configurationItem with
  | none => fromId
  | some ci =>
    let arn := if truthy ci.arnUpper then ci.arnUpper else ci.arnLower
    let ciArns := match arn with
      | some a => if a ≠ "" then [a] else []
      | none => []
    let ciNames := match ci.resourceName with
      | some n => if n ≠ "" then [n] else []
      | none => []
    ⟨fromId.arns ++ ciArns, fromId.ids, fromId.names ++ ciNames⟩

/-- `parse_event_by_source` (`event_filter_builder.py`, lines 474-498):
dispatch on the detected source; unknown shapes yield empty collections
without error. -/
def parseEventBySource (e : CloudEvent) : GenericResources :=
  match detectEventSource e with
  | .cloudtrail => parseCloudtrailEvent e
  | .guardduty => parseGuarddutyFinding e
  | .securityhub => parseSecurityhubFinding e
  | .config => parseConfigEvent e
  | .unknown => ⟨[], [], []⟩

/-- One classification step of `_recursive_extract` (`validator.py`, lines
598-628): a string value is appended to `arns` when the key contains `arn`
or the value starts with `arn:aws:`, else to `ids` when the key matches an
ID pattern, else to `names` when it matches a name pattern — each only when
the value is truthy and not already present. -/
def classifyKV (k : String) (v : J) (acc : GenericResources) : GenericResources :=
  match v with
  | .str s =>
    let keyLower := strLower k
    if strContains keyLower "arn" ∨ (if s ≠ "" then strStartsWith s "arn:aws:" else False) then
      if s ≠ "" ∧ s ∉ acc.arns then ⟨acc.arns ++ [s], acc.ids, acc.names⟩ else acc
    else if ["id", "identifier", "resourceid", "instanceid", "volumeid",
        "snapshotid", "imageid", "groupid", "vpcid", "subnetid",
        "clusterid", "dbinstanceidentifier", "filesystemid",
        "streamname", "topicarn", "queueurl", "functionname"].any
        (fun pat => strContains keyLower pat) then
      if s ≠ "" ∧ s ∉ acc.ids then ⟨acc.arns, acc.ids ++ [s], acc.names⟩ else acc
    else if ["name", "bucketname", "username", "rolename", "policyname",
        "tablename", "clustername", "loadbalancername"].any
        (fun pat => strContains keyLower pat) then
      if s ≠ "" ∧ s ∉ acc.names then ⟨acc.arns, acc.ids, acc.names ++ [s]⟩ else acc
    else acc
  | _ => acc

/-- `_recursive_extract` (`validator.py`, lines 585-635) with the remaining
recursion depth as fuel: the Python guard `depth > max_depth` (with
`max_depth = 10` and an initial depth of 0) corresponds to an initial fuel
of 11.  Dict entries are classified and then recursed into in order; list
items are recursed into; other leaves are ignored. -/
def recursiveExtract : Nat → J → GenericResources → GenericResources
  | 0, _, acc => acc
  | Nat.succ fuel, .obj kvs, acc =>
    kvs.foldl (fun a kv => recursiveExtract fuel kv.2 (classifyKV kv.1 kv.2 a)) acc
  | Nat.succ fuel, .arr xs, acc =>
    xs.foldl (fun a x => recursiveExtract fuel x a) acc
  | Nat.succ _, .str _, acc => acc
  | Nat.succ _, .other, acc => acc

/-- `_extract_generic_resources` (`validator.py`, lines 552-583): walk
`request_parameters` then `response_elements` and apply the final
`list(set(...))` deduplication to the three collections. -/
def extractGenericResources (requestParams responseElems : J) :
    GenericResources :=
  let r1 := recursiveExtract 11 requestParams ⟨[], [], []⟩
  let r2 := recursiveExtract 11 responseElems r1
  ⟨pyDedup r2.arns, pyDedup r2.ids, pyDedup r2.names⟩

/-! ## Event validation (`validator.py`, lines 36-73 and 639-652) -/

/-- `EventValidator.validate_event` (`validator.py`, lines 36-73),
abstracted over the three per-source branch methods: missing `detail-type`
raises; the three recognised `detail-type` values dispatch to their branch;
every other value raises `Unsupported event type`. -/
def validateEventDispatch {α : Type}
    (validateCT validateSH validateGD : CloudEvent → Except String α)
    (e : CloudEvent) : Except String α :=
  match e.detailType with
  | none => .error "Invalid event: missing 'detail-type' field"
  | some dt =>
    if dt = "AWS API Call via CloudTrail" then validateCT e
    else if dt = "Security Hub Findings - Imported" then validateSH e
    else if dt = "GuardDuty Finding" then validateGD e
    else .error ("Unsupported event type: " ++ dt)

/-- The `{valid, event_info | error}` dict of the module-level
`validate_event` wrapper. -/
structure LegacyValidation (α : Type) where
  valid : Bool
  event_info : Option α
  error : Option String
  deriving DecidableEq, Repr

/-- The module-level `validate_event` (`validator.py`, lines 639-652):
catch any exception of the class method and turn it into
`{valid: false, error}`. -/
def validateEventLegacy {α : Type}
    (validateCT validateSH validateGD : CloudEvent → Except String α)
    (e : CloudEvent) : LegacyValidation α :=
  match validateEventDispatch validateCT validateSH validateGD e with
  | .ok info => ⟨true, some info, none⟩
  | .error msg => ⟨false, none, some msg⟩

/-- The handler's validation gate (`lambda_handler.py`, lines 177-188 of
the lambda-functions copy, lines 196-206 of the cross-account copy): an
invalid validation result short-circuits the invocation with a 400
response. -/
def handlerValidationGate {α : Type} (v : LegacyValidation α) : Option Nat :=
  if v.valid = false then some 400 else none

end Custodian

namespace Custodian

/-! ## Theorems -/

/-- Looking up a key right after a Python dict assignment yields the
assigned value. -/
theorem lookup_dictSet {α : Type} (d : List (String × α)) (k : String) (v : α) :
    (dictSet d k v).lookup k = some v := by
  unfold dictSet
  split
  case isTrue h =>
    induction d with
    | nil => simp at h
    | cons p t ih =>
      rcases p with ⟨a, b⟩
      by_cases hak : a = k
      · subst hak
        simp only [List.map_cons, if_pos rfl]
        simp [List.lookup]
      · have hk : (k == a) = false := by
          simp only [beq_eq_false_iff_ne, ne_eq]
          exact fun he => hak he.symm
        simp only [List.any_cons, Bool.or_eq_true, decide_eq_true_eq] at h
        rcases h with h | h
        · exact absurd h hak
        · simp only [List.map_cons, if_neg hak]
          simp only [List.lookup, hk]
          exact ih h
  case isFalse h =>
    induction d with
    | nil => simp [List.lookup]
    | cons p t ih =>
      rcases p with ⟨a, b⟩
      simp only [List.any_cons, Bool.or_eq_true, decide_eq_true_eq, not_or] at h
      have hk : (k == a) = false := by
        simp only [beq_eq_false_iff_ne, ne_eq]
        exact fun he => h.1 he.symm
      simp only [List.cons_append, List.lookup, hk]
      exact ih (by simpa using h.2)

/-- `pyDedup` always produces a duplicate-free list. -/
theorem pyDedup_nodup {α : Type} [DecidableEq α] (l : List α) :
    (pyDedup l).Nodup := by
  induction l with
  | nil => simp [pyDedup]
  | cons x xs ih =>
    unfold pyDedup
    dsimp only
    split
    · exact ih
    · exact List.Nodup.cons (by assumption) ih

/-- Appending a fresh element to a duplicate-free list keeps it
duplicate-free. -/
theorem nodup_append_singleton {α : Type} {l : List α} {a : α}
    (h : l.Nodup) (ha : a ∉ l) : (l ++ [a]).Nodup := by
  simp [List.nodup_append, h, ha]

/-- `setField` never touches the `Tags` key. -/
theorem setField_tags (r : Res) (k v : String) :
    (setField r k v).tags = r.tags := rfl

/-- After `setField r k v`, looking up `k` yields `v`. -/
theorem lookup_setField (r : Res) (k v : String) :
    (setField r k v).fields.lookup k = some v :=
  lookup_dictSet r.fields k v

/-- C9: while the correlation ID is set from the platform request ID, every
SQS `SendMessage` issued during policy execution reaches the underlying
publish with a string message attribute `InvocationId` equal to the current
invocation ID, the other parameters unchanged. -/
theorem sqs_invocation_id_attached (rid : String) (hrid : rid ≠ "")
    (env : List (String × String)) (p : ApiParams) :
    (setInvocationIdEnv (some rid) env).lookup "C7N_INVOCATION_ID" = some rid ∧
    ((sqsSendParams (setInvocationIdEnv (some rid) env) p).messageAttributes.getD
        []).lookup "InvocationId" = some ⟨rid, "String"⟩ ∧
    (sqsSendParams (setInvocationIdEnv (some rid) env) p).rest = p.rest := by
  have hlook : (setInvocationIdEnv (some rid) env).lookup "C7N_INVOCATION_ID"
      = some rid := by
    unfold setInvocationIdEnv
    dsimp only
    rw [if_pos hrid]
    exact lookup_dictSet env "C7N_INVOCATION_ID" rid
  have hsend : sqsSendParams (setInvocationIdEnv (some rid) env) p =
      { p with messageAttributes := (some (dictSet (p.messageAttributes.getD []) "InvocationId" ⟨rid, "String"⟩)) } := by
    unfold sqsSendParams
    rw [hlook]
    dsimp only
    rw [if_pos hrid]
    unfold makeApiCallWithInvocationId
    rw [if_pos ⟨rfl, rfl⟩]
    dsimp only
    rw [if_pos hrid]
  refine ⟨hlook, ?_, ?_⟩
  · rw [hsend]
    exact lookup_dictSet (p.messageAttributes.getD []) "InvocationId" ⟨rid, "String"⟩
  · rw [hsend]

/-- C9 witness: a concrete request ID, empty environment and a message
without prior attributes. -/
theorem sqs_invocation_id_attached_witness :
    ((sqsSendParams (setInvocationIdEnv (some "req-42") [])
        ⟨none, [("QueueUrl", "q"), ("MessageBody", "m")]⟩).messageAttributes.getD
        []).lookup "InvocationId" = some ⟨"req-42", "String"⟩ := by
  exact (sqs_invocation_id_attached "req-42" (by decide) []
    ⟨none, [("QueueUrl", "q"), ("MessageBody", "m")]⟩).2.1

/-- C6: for a listener ARN of the form
`arn:<p>:elasticloadbalancing:<r>:<a>:listener/app/<name>/<lb-id>/<listener-id>`
and an `aws.app-elb` policy, the executor prepends a `LoadBalancerArn`
filter whose value is exactly
`arn:<p>:elasticloadbalancing:<r>:<a>:loadbalancer/app/<name>/<lb-id>`. -/
theorem listener_arn_reconstruction
    (arn p r a rest name lbid lid : String) (filters : List Filter)
    (h1 : splitOnChar ':' arn = ["arn", p, "elasticloadbalancing", r, a, rest])
    (h2 : splitOnChar '/' rest = ["listener", "app", name, lbid, lid]) :
    applyListenerArnFilter (some arn) "aws.app-elb" filters =
      ⟨"value", "LoadBalancerArn",
        "arn:" ++ p ++ ":elasticloadbalancing:" ++ r ++ ":" ++ a
          ++ ":loadbalancer/app/" ++ name ++ "/" ++ lbid⟩ :: filters := by
  have harn : arn ≠ "" := by
    intro he
    subst he
    simp [splitOnChar, splitCharList] at h1
  have hex : extractLbArnFromListener arn =
      some ("arn:" ++ p ++ ":elasticloadbalancing:" ++ r ++ ":" ++ a
        ++ ":loadbalancer/app/" ++ name ++ "/" ++ lbid) := by
    unfold extractLbArnFromListener
    rw [h1]
    simp only [List.get?]
    rw [h2]
    simp only [List.take, List.drop, joinSep, List.foldl]
    congr 1
    simp only [String.append_assoc]
    rfl
  unfold applyListenerArnFilter
  dsimp only
  rw [if_pos ⟨harn, rfl⟩, hex]

/-- C6 witness: the reconstruction theorem at the spec's concrete example
ARN. -/
theorem listener_arn_reconstruction_witness :
    applyListenerArnFilter
        (some "arn:aws:elasticloadbalancing:us-east-1:111:listener/app/web/abcd/1234")
        "aws.app-elb" [] =
      [⟨"value", "LoadBalancerArn",
        "arn:aws:elasticloadbalancing:us-east-1:111:loadbalancer/app/web/abcd"⟩] := by
  have h := listener_arn_reconstruction
    "arn:aws:elasticloadbalancing:us-east-1:111:listener/app/web/abcd/1234"
    "aws" "us-east-1" "111" "listener/app/web/abcd/1234" "web" "abcd" "1234" []
    (by decide) (by decide)
  rw [h]
  decide

/-- C5 (counterexample): in the enumeration path (no pre-fetched
resources), with a known principal and an `aws.ec2` policy, the matched
descriptor gets `c7n:CreatorName` only *after* `p.run()` — which already
executed the actions — and *no* `{Key, Value}` entry is appended to its
`Tags` list, contradicting the claim on both counts. -/
theorem ec2_tags_enrichment_cex :
    executeCustodianPolicy "aws.ec2" (some "alice") none (fun l => l)
        [⟨[("InstanceId", "i-1")], some []⟩] false =
      ⟨[⟨[("InstanceId", "i-1"), ("c7n:CreatorName", "alice")], some []⟩],
       [ExecStep.runPolicy, ExecStep.enrichMatched]⟩ := by
  decide

/-- Every descriptor produced by the pre-execution enrichment loop carries
`c7n:CreatorName` equal to the principal. -/
theorem enrichProvided_mem_lookup (pr c : String) (rs : List Res) :
    ∀ r ∈ enrichProvidedResources pr c rs,
      r.fields.lookup "c7n:CreatorName" = some c := by
  intro r hr
  unfold enrichProvidedResources at hr
  rcases List.mem_map.mp hr with ⟨r₀, _, rfl⟩
  dsimp only
  split
  · split
    · split
      · exact lookup_setField r₀ _ _
      · exact lookup_setField r₀ _ _
    · exact lookup_setField r₀ _ _
  · exact lookup_setField r₀ _ _

/-- Behaviour of the enumeration path: creator set on each matched
descriptor after the run, no action step in the trace, tags untouched. -/
theorem runEnumeratedPath_props (c : String) (enumerated : List Res) :
    (∀ r ∈ (runEnumeratedPath (some c) enumerated).matched,
      r.fields.lookup "c7n:CreatorName" = some c) ∧
    ExecStep.execActions ∉ (runEnumeratedPath (some c) enumerated).trace ∧
    (runEnumeratedPath (some c) enumerated).trace =
      [ExecStep.runPolicy] ++
        (if enumerated ≠ [] then [ExecStep.enrichMatched] else []) ∧
    (∀ r ∈ (runEnumeratedPath (some c) enumerated).matched,
      ∃ r₀ ∈ enumerated, r = setField r₀ "c7n:CreatorName" c ∧
        r.tags = r₀.tags) := by
  cases enumerated with
  | nil =>
    refine ⟨?_, ?_, ?_, ?_⟩
    · intro r hr; simp [runEnumeratedPath] at hr
    · simp [runEnumeratedPath]
    · simp [runEnumeratedPath]
    · intro r hr; simp [runEnumeratedPath] at hr
  | cons x xs =>
    refine ⟨?_, ?_, ?_, ?_⟩
    · intro r hr
      simp only [runEnumeratedPath, ne_eq, reduceCtorEq, not_false_eq_true,
        if_true] at hr
      rcases List.mem_map.mp hr with ⟨r₀, _, rfl⟩
      exact lookup_setField r₀ _ _
    · simp [runEnumeratedPath]
    · simp [runEnumeratedPath]
    · intro r hr
      simp only [runEnumeratedPath, ne_eq, reduceCtorEq, not_false_eq_true,
        if_true] at hr
      rcases List.mem_map.mp hr with ⟨r₀, hr₀, rfl⟩
      exact ⟨r₀, hr₀, rfl, setField_tags r₀ _ _⟩

/-- C5 (amended): with a known principal, every matched descriptor carries
`c7n:CreatorName` equal to the principal after execution in both paths; in
the pre-fetched path the enrichment (including the EC2 tag append for
descriptors that already carry a `Tags` list) happens before any action
executes; in the enumeration path the enrichment happens only after
`p.run()` (hence after the actions) and leaves every `Tags` list
unchanged. -/
theorem execute_enrichment_amended (policyResource c : String)
    (provided : Option (List Res)) (filterFn : List Res → List Res)
    (enumerated : List Res) (dryrun : Bool)
    (hsub : ∀ l x, x ∈ filterFn l → x ∈ l) :
    (∀ r ∈ (executeCustodianPolicy policyResource (some c) provided filterFn
        enumerated dryrun).matched,
      r.fields.lookup "c7n:CreatorName" = some c) ∧
    (ExecStep.execActions ∈ (executeCustodianPolicy policyResource (some c)
        provided filterFn enumerated dryrun).trace →
      List.Sublist [ExecStep.enrichProvided, ExecStep.execActions]
        (executeCustodianPolicy policyResource (some c) provided filterFn
          enumerated dryrun).trace) ∧
    (provided = none ∨ provided = some [] →
      (executeCustodianPolicy policyResource (some c) provided filterFn
          enumerated dryrun).trace =
        [ExecStep.runPolicy] ++
          (if enumerated ≠ [] then [ExecStep.enrichMatched] else []) ∧
      ∀ r ∈ (executeCustodianPolicy policyResource (some c) provided filterFn
          enumerated dryrun).matched,
        ∃ r₀ ∈ enumerated, r = setField r₀ "c7n:CreatorName" c ∧
          r.tags = r₀.tags) := by
  rcases provided with _ | rs
  · have hexec : executeCustodianPolicy policyResource (some c) none filterFn
        enumerated dryrun = runEnumeratedPath (some c) enumerated := rfl
    rw [hexec]
    obtain ⟨hm, hna, htr, hsrc⟩ := runEnumeratedPath_props c enumerated
    exact ⟨hm, fun hmem => absurd hmem hna, fun _ => ⟨htr, hsrc⟩⟩
  · cases rs with
    | nil =>
      have hexec : executeCustodianPolicy policyResource (some c) (some [])
          filterFn enumerated dryrun = runEnumeratedPath (some c) enumerated := by
        unfold executeCustodianPolicy
        simp
      rw [hexec]
      obtain ⟨hm, hna, htr, hsrc⟩ := runEnumeratedPath_props c enumerated
      exact ⟨hm, fun hmem => absurd hmem hna, fun _ => ⟨htr, hsrc⟩⟩
    | cons x xs =>
      have hexec : executeCustodianPolicy policyResource (some c)
          (some (x :: xs)) filterFn enumerated dryrun =
          ⟨filterFn (enrichProvidedResources policyResource c (x :: xs)),
           [ExecStep.enrichProvided, ExecStep.applyFilters]
             ++ (if filterFn (enrichProvidedResources policyResource c (x :: xs))
                    ≠ [] ∧ dryrun = false
                 then [ExecStep.execActions] else [])⟩ := by
        unfold executeCustodianPolicy
        simp
      rw [hexec]
      refine ⟨?_, ?_, ?_⟩
      · intro r hr
        exact enrichProvided_mem_lookup policyResource c (x :: xs) r
          (hsub _ r hr)
      · intro hmem
        by_cases hcond : filterFn (enrichProvidedResources policyResource c
            (x :: xs)) ≠ [] ∧ dryrun = false
        · rw [if_pos hcond]
          show List.Sublist [ExecStep.enrichProvided, ExecStep.execActions]
            ([ExecStep.enrichProvided, ExecStep.applyFilters]
              ++ [ExecStep.execActions])
          decide
        · rw [if_neg hcond] at hmem ⊢
          simp at hmem
      · intro hcase
        rcases hcase with hcase | hcase <;> simp at hcase

/-- C2 (counterexample): a concrete event whose shape matches none of the
recognised sources *is* rejected: `validate_event` flags it invalid with
`Unsupported event type` and the handler returns 400, even though the
classifier tags it `unknown` with empty resources. -/
theorem unknown_event_rejected_cex :
    detectEventSource ⟨some "custom.app", some "Heartbeat", none⟩ =
      EventSource.unknown ∧
    parseEventBySource ⟨some "custom.app", some "Heartbeat", none⟩ =
      ⟨[], [], []⟩ ∧
    validateEventLegacy (α := Unit) (fun _ => .error "") (fun _ => .error "")
        (fun _ => .error "") ⟨some "custom.app", some "Heartbeat", none⟩ =
      ⟨false, none, some "Unsupported event type: Heartbeat"⟩ ∧
    handlerValidationGate (validateEventLegacy (α := Unit)
        (fun _ => .error "") (fun _ => .error "")
        (fun _ => .error "") ⟨some "custom.app", some "Heartbeat", none⟩) =
      some 400 := by
  refine ⟨rfl, ?_, ?_, ?_⟩ <;> decide

/-- C2 (amended): classification (`parse_event_by_source`) is indeed
lenient — every event whose detected source is `unknown` yields empty
collections without error — but validation is not: any event whose
`detail-type` is none of the three recognised values is rejected by
`EventValidator.validate_event` with `Unsupported event type`, and the
handler turns that into a 400 response. -/
theorem unknown_event_handling_amended {α : Type}
    (validateCT validateSH validateGD : CloudEvent → Except String α)
    (e : CloudEvent) (dt : String)
    (hdt : e.detailType = some dt)
    (h1 : dt ≠ "AWS API Call via CloudTrail")
    (h2 : dt ≠ "Security Hub Findings - Imported")
    (h3 : dt ≠ "GuardDuty Finding") :
    (∀ e' : CloudEvent, detectEventSource e' = .unknown →
      parseEventBySource e' = ⟨[], [], []⟩) ∧
    validateEventLegacy validateCT validateSH validateGD e =
      ⟨false, none, some ("Unsupported event type: " ++ dt)⟩ ∧
    handlerValidationGate
        (validateEventLegacy validateCT validateSH validateGD e) = some 400 := by
  have hval : validateEventLegacy validateCT validateSH validateGD e =
      ⟨false, none, some ("Unsupported event type: " ++ dt)⟩ := by
    unfold validateEventLegacy validateEventDispatch
    rw [hdt]
    simp only [if_neg h1, if_neg h2, if_neg h3]
  refine ⟨?_, hval, ?_⟩
  · intro e' he'
    unfold parseEventBySource
    rw [he']
  · rw [hval]
    rfl

/-- C2 witness: the amended theorem at a concrete unrecognised
`detail-type`. -/
theorem unknown_event_handling_amended_witness :
    validateEventLegacy (α := Unit) (fun _ => .error "x") (fun _ => .error "x")
        (fun _ => .error "x") ⟨some "aws.config", some "Config Rules Compliance Change",
          none⟩ =
      ⟨false, none, some "Unsupported event type: Config Rules Compliance Change"⟩ := by
  have h := (unknown_event_handling_amended (α := Unit)
    (fun _ => .error "x") (fun _ => .error "x") (fun _ => .error "x")
    ⟨some "aws.config", some "Config Rules Compliance Change", none⟩
    "Config Rules Compliance Change" rfl (by decide) (by decide) (by decide)).2.1
  rw [h]
  decide

/-- C8 (counterexample): `parse_cloudtrail_event` does not deduplicate — an
identifier present in both `requestParameters` and `responseElements`
appears twice in the extracted `ids`. -/
theorem parse_cloudtrail_duplicate_cex :
    parseEventBySource
        ⟨some "aws.cloudtrail", some "AWS API Call via CloudTrail",
         some { emptyDetail with
                requestParameters := some [("instanceId", "i-1")],
                responseElements := some [("instanceId", "i-1")] }⟩ =
      ⟨[], ["i-1", "i-1"], []⟩ ∧
    ¬ (["i-1", "i-1"] : List String).Nodup := by
  constructor
  · decide
  · decide

/-- One classification step preserves duplicate-freeness: every append is
guarded by a membership check. -/
theorem classifyKV_nodup (k : String) (v : J) (acc : GenericResources)
    (h1 : acc.arns.Nodup) (h2 : acc.ids.Nodup) (h3 : acc.names.Nodup) :
    (classifyKV k v acc).arns.Nodup ∧ (classifyKV k v acc).ids.Nodup ∧
    (classifyKV k v acc).names.Nodup := by
  unfold classifyKV
  cases v with
  | str s =>
    dsimp only
    split_ifs <;>
      refine ⟨?_, ?_, ?_⟩ <;>
      first
        | exact h1
        | exact h2
        | exact h3
        | (rename_i hg; exact nodup_append_singleton h1 hg.2)
        | (rename_i hg; exact nodup_append_singleton h2 hg.2)
        | (rename_i hg; exact nodup_append_singleton h3 hg.2)
  | obj kvs => exact ⟨h1, h2, h3⟩
  | arr xs => exact ⟨h1, h2, h3⟩
  | other => exact ⟨h1, h2, h3⟩

/-- The recursive walk preserves duplicate-freeness of all three
collections, at any depth and over any payload. -/
theorem recursiveExtract_nodup :
    ∀ (fuel : Nat) (j : J) (acc : GenericResources),
      acc.arns.Nodup → acc.ids.Nodup → acc.names.Nodup →
      (recursiveExtract fuel j acc).arns.Nodup ∧
      (recursiveExtract fuel j acc).ids.Nodup ∧
      (recursiveExtract fuel j acc).names.Nodup := by
  intro fuel
  induction fuel with
  | zero =>
    intro j acc h1 h2 h3
    cases j <;> exact ⟨h1, h2, h3⟩
  | succ fuel ih =>
    intro j acc h1 h2 h3
    cases j with
    | str s => exact ⟨h1, h2, h3⟩
    | other => exact ⟨h1, h2, h3⟩
    | obj kvs =>
      have key : ∀ (l : List (String × J)) (a : GenericResources),
          a.arns.Nodup → a.ids.Nodup → a.names.Nodup →
          ((l.foldl (fun a kv =>
              recursiveExtract fuel kv.2 (classifyKV kv.1 kv.2 a)) a).arns.Nodup ∧
           (l.foldl (fun a kv =>
              recursiveExtract fuel kv.2 (classifyKV kv.1 kv.2 a)) a).ids.Nodup ∧
           (l.foldl (fun a kv =>
              recursiveExtract fuel kv.2 (classifyKV kv.1 kv.2 a)) a).names.Nodup) := by
        intro l
        induction l with
        | nil => intro a ha1 ha2 ha3; exact ⟨ha1, ha2, ha3⟩
        | cons kv tl ihl =>
          intro a ha1 ha2 ha3
          simp only [List.foldl_cons]
          obtain ⟨hc1, hc2, hc3⟩ := classifyKV_nodup kv.1 kv.2 a ha1 ha2 ha3
          obtain ⟨hr1, hr2, hr3⟩ := ih kv.2 _ hc1 hc2 hc3
          exact ihl _ hr1 hr2 hr3
      exact key kvs acc h1 h2 h3
    | arr xs =>
      have key : ∀ (l : List J) (a : GenericResources),
          a.arns.Nodup → a.ids.Nodup → a.names.Nodup →
          ((l.foldl (fun a x => recursiveExtract fuel x a) a).arns.Nodup ∧
           (l.foldl (fun a x => recursiveExtract fuel x a) a).ids.Nodup ∧
           (l.foldl (fun a x => recursiveExtract fuel x a) a).names.Nodup) := by
        intro l
        induction l with
        | nil => intro a ha1 ha2 ha3; exact ⟨ha1, ha2, ha3⟩
        | cons x tl ihl =>
          intro a ha1 ha2 ha3
          simp only [List.foldl_cons]
          obtain ⟨hr1, hr2, hr3⟩ := ih x a ha1 ha2 ha3
          exact ihl _ hr1 hr2 hr3
      exact key xs acc h1 h2 h3

/-- C8 (amended): the validator's `_extract_generic_resources` (as written)
returns duplicate-free `arns`, `ids` and `names` for every input — the
collections are already duplicate-free after the membership-guarded
recursive walk, before the final `list(set(...))` — but the filter
builder's `parse_cloudtrail_event` performs no deduplication. -/
theorem extract_generic_resources_nodup (requestParams responseElems : J) :
    ((recursiveExtract 11 responseElems
        (recursiveExtract 11 requestParams ⟨[], [], []⟩)).arns.Nodup ∧
     (recursiveExtract 11 responseElems
        (recursiveExtract 11 requestParams ⟨[], [], []⟩)).ids.Nodup ∧
     (recursiveExtract 11 responseElems
        (recursiveExtract 11 requestParams ⟨[], [], []⟩)).names.Nodup) ∧
    (extractGenericResources requestParams responseElems).arns.Nodup ∧
    (extractGenericResources requestParams responseElems).ids.Nodup ∧
    (extractGenericResources requestParams responseElems).names.Nodup := by
  obtain ⟨ha, hi, hn⟩ := recursiveExtract_nodup 11 requestParams ⟨[], [], []⟩
    List.nodup_nil List.nodup_nil List.nodup_nil
  obtain ⟨ha2, hi2, hn2⟩ := recursiveExtract_nodup 11 responseElems _ ha hi hn
  exact ⟨⟨ha2, hi2, hn2⟩, pyDedup_nodup _, pyDedup_nodup _, pyDedup_nodup _⟩

/-- C5 witness: the amended execution theorem at a concrete pre-fetched
EC2 descriptor with an identity filter function. -/
theorem execute_enrichment_amended_witness :
    ((executeCustodianPolicy "aws.ec2" (some "alice")
        (some [⟨[("InstanceId", "i-0")], some [("env", "dev")]⟩])
        (fun l => l) [] false).matched.headD ⟨[], none⟩).fields.lookup
      "c7n:CreatorName" = some "alice" := by
  have h := (execute_enrichment_amended "aws.ec2" "alice"
    (some [⟨[("InstanceId", "i-0")], some [("env", "dev")]⟩])
    (fun l => l) [] false (fun _ _ hx => hx)).1
  exact h _ (by decide)

/-- C10: `extract_region_from_event` is total (its return type is `String`,
never an optional) and returns the top-level `region` field if present, else
`detail.awsRegion`, else `detail.Region`, and the literal default
`"us-east-1"` when none of these fields is present. -/
theorem extractRegion_total_cascade (e : RegionEvent) :
    extractRegionFromEvent e =
      ((e.region <|> (e.detail.bind RegionDetail.awsRegion)
        <|> (e.detail.bind RegionDetail.regionField)).getD "us-east-1") := by
  rcases e with ⟨r, d⟩
  cases r <;> rcases d with _ | ⟨aw, rf⟩ <;>
    first
    | rfl
    | (cases aw <;> cases rf <;> rfl)

/-- C3 (counterexample): for a resource type without an `ARN_FIELD_MAPPING`
entry (`aws.ami`) and a non-empty `arns`, the builder still emits a primary
filter, with the hard-coded default key `"Arn"` — not "exactly T's entry in
the ARN field mapping", which does not exist for this type. -/
theorem primary_filter_key_default_cex :
    (buildFiltersAndResources
        ⟨["arn:aws:ec2:us-east-1::image/ami-0abc"], [], []⟩ "aws.ami" none).filters
      = [⟨"value", "Arn", "arn:aws:ec2:us-east-1::image/ami-0abc"⟩] ∧
    ARN_FIELD_MAPPING.lookup "aws.ami" = none := by
  decide

/-- C3 (amended): the filter strategies emit at most one primary filter;
when `arns` is non-empty its key is T's `ARN_FIELD_MAPPING` entry *with the
default `"Arn"` for unmapped types*; when `arns` is empty an emitted
filter's key is exactly T's ID-field entry (when `ids` is non-empty) else
T's name-field entry; and whenever the returned `provided_resources` is
non-empty the returned filter list is empty. -/
theorem build_filters_primary_amended (g : GenericResources) (rt : String) :
    (primaryFilters g rt).length ≤ 1 ∧
    (∀ a rest, g.arns = a :: rest →
      primaryFilters g rt =
        [⟨"value", (ARN_FIELD_MAPPING.lookup rt).getD "Arn", a⟩]) ∧
    (g.arns = [] → ∀ f ∈ primaryFilters g rt,
      (g.ids ≠ [] → ID_FIELD_MAPPING.lookup rt = some f.key) ∧
      (g.ids = [] → NAME_FIELD_MAPPING.lookup rt = some f.key)) ∧
    (∀ l, l ≠ [] →
      (buildFiltersAndResources g rt (some l)).filters = [] ∧
      (buildFiltersAndResources g rt (some l)).provided_resources = some l) := by
  rcases g with ⟨arns, ids, names⟩
  refine ⟨?_, ?_, ?_, ?_⟩
  · cases arns with
    | cons a rest => simp [primaryFilters]
    | nil =>
      cases ids with
      | cons i irest =>
        cases hl : ID_FIELD_MAPPING.lookup rt with
        | none => simp [primaryFilters, hl]
        | some idField =>
          cases hfl : filteredIdsFor rt (i :: irest) <;>
            simp [primaryFilters, hl, hfl]
      | nil =>
        cases names with
        | nil => simp [primaryFilters]
        | cons n nrest =>
          cases hl : NAME_FIELD_MAPPING.lookup rt <;>
            simp [primaryFilters, hl]
  · intro a rest h
    subst h
    simp [primaryFilters]
  · intro h f hf
    subst h
    cases ids with
    | cons i irest =>
      refine ⟨fun _ => ?_, fun hc => by simp at hc⟩
      cases hl : ID_FIELD_MAPPING.lookup rt with
      | none => simp [primaryFilters, hl] at hf
      | some idField =>
        cases hfl : filteredIdsFor rt (i :: irest) with
        | nil => simp [primaryFilters, hl, hfl] at hf
        | cons x xs =>
          simp [primaryFilters, hl, hfl] at hf
          subst hf
          rfl
    | nil =>
      refine ⟨fun hc => absurd rfl hc, fun _ => ?_⟩
      cases names with
      | nil => simp [primaryFilters] at hf
      | cons n nrest =>
        cases hl : NAME_FIELD_MAPPING.lookup rt with
        | none => simp [primaryFilters, hl] at hf
        | some nameField =>
          simp [primaryFilters, hl] at hf
          subst hf
          rfl
  · intro l hl
    unfold buildFiltersAndResources
    simp [hl]

/-- C3 witness: the amended builder theorem at concrete inputs — exactly
one ARN filter for `aws.app-elb`, and cleared filters with non-empty
provided resources for `aws.ec2`. -/
theorem build_filters_primary_amended_witness :
    primaryFilters
        ⟨["arn:aws:elasticloadbalancing:us-east-1:111:loadbalancer/app/web/abcd"],
         [], []⟩ "aws.app-elb"
      = [⟨"value", "LoadBalancerArn",
          "arn:aws:elasticloadbalancing:us-east-1:111:loadbalancer/app/web/abcd"⟩] ∧
    (buildFiltersAndResources ⟨[], ["i-0123"], []⟩ "aws.ec2"
        (some ["resource-i-0123"])).filters = [] := by
  constructor
  · have h := (build_filters_primary_amended
      ⟨["arn:aws:elasticloadbalancing:us-east-1:111:loadbalancer/app/web/abcd"],
       [], []⟩ "aws.app-elb").2.1
      "arn:aws:elasticloadbalancing:us-east-1:111:loadbalancer/app/web/abcd" [] rfl
    rw [h]; decide
  · exact ((build_filters_primary_amended ⟨[], ["i-0123"], []⟩ "aws.ec2").2.2.2
      ["resource-i-0123"] (by decide)).1

/-- C4 (counterexample): an S3 bucket ARN offered against an `aws.ec2`
policy *is* emitted as the filter value, even though `arn_matches_resource`
rejects that combination — the builder never consults the compatibility
table. -/
theorem arn_service_mismatch_emitted_cex :
    (buildFiltersAndResources ⟨["arn:aws:s3:::my-bucket"], [], []⟩
        "aws.ec2" none).filters
      = [⟨"value", "Arn", "arn:aws:s3:::my-bucket"⟩] ∧
    arnMatchesResource "arn:aws:s3:::my-bucket" "aws.ec2" = false := by
  decide

/-- C4 (amended): with a non-empty `arns`, `build_filters_and_resources`
uses the *first* ARN of the list as the filter value unconditionally — even
when `arn_matches_resource` rejects it for the resource type.  The
service-vs-type compatibility table exists (`arn_matches_resource`) but the
builder does not call it. -/
theorem build_filters_first_arn_unconditional
    (rt a : String) (arest ids names : List String)
    (_hmismatch : arnMatchesResource a rt = false) :
    (buildFiltersAndResources ⟨a :: arest, ids, names⟩ rt none).filters
      = [⟨"value", (ARN_FIELD_MAPPING.lookup rt).getD "Arn", a⟩] := by
  unfold buildFiltersAndResources
  simp [primaryFilters]

/-- C4 witness: the unconditional-first-ARN theorem at the concrete
mismatching input (S3 bucket ARN against `aws.ec2`). -/
theorem build_filters_first_arn_unconditional_witness :
    (buildFiltersAndResources ⟨["arn:aws:s3:::another-bucket"], [], []⟩
        "aws.ec2" none).filters
      = [⟨"value", "Arn", "arn:aws:s3:::another-bucket"⟩] := by
  have h := build_filters_first_arn_unconditional "aws.ec2"
    "arn:aws:s3:::another-bucket" [] [] [] (by decide)
  rw [h]; decide

/-- C7: with `ids = ["i-abc", "ami-xyz", "vol-1"]` and no ARNs, the builder
emits exactly one filter — `InstanceId = "i-abc"` for `aws.ec2` and
`ImageId = "ami-xyz"` for `aws.ami` (per-type ID-prefix filtering). -/
theorem id_prefix_rule_ec2_ami :
    buildFiltersAndResources ⟨[], ["i-abc", "ami-xyz", "vol-1"], []⟩
        "aws.ec2" none
      = ⟨[⟨"value", "InstanceId", "i-abc"⟩], none⟩ ∧
    buildFiltersAndResources ⟨[], ["i-abc", "ami-xyz", "vol-1"], []⟩
        "aws.ami" none
      = ⟨[⟨"value", "ImageId", "ami-xyz"⟩], none⟩ := by
  decide

/-- C1 (counterexample): policy resolution does *not* fall back to the
global `event_mapping`.  With a mapping whose global table maps
`RunInstances` to policy `p` of file `f.yml` and whose `account_mapping` is
empty, `get_policies_for_event` returns the empty dict instead of the
grouped global entry `{f: [p]}`. -/
theorem getPoliciesForEvent_no_global_fallback :
    getPoliciesForEvent "111122223333" "RunInstances"
      ⟨[("RunInstances", [⟨"f.yml", "p"⟩])], []⟩ = [] ∧
    groupBySourceFile [⟨"f.yml", "p"⟩] = [("f", ["p"])] ∧
    ([] : Grouped) ≠ [("f", ["p"])] := by
  refine ⟨rfl, ?_, by decide⟩
  decide

/-- C1 (amended): the two resolver implementations behave differently, and
neither matches the claim verbatim.  (a) The lambda-functions resolver uses
`account_mapping[tenant].event_mapping[event]` whenever that key is present
(grouped as `{file → [policy_names]}` with `.yml` stripped) and returns the
empty dict otherwise — it never consults the global mapping.  (b) The
cross-account resolver returns, for a present tenant entry, the
deduplicated *list of source-file names* (not a file→names map); only when
the tenant or its event key is absent does it fall back to the global
mapping grouped by file, and to the empty dict when that is also absent. -/
theorem policy_resolution_two_tier_amended
    (tid en : String) (m : PolicyMapping) :
    (∀ cfg refs, m.account_mapping.lookup tid = some cfg →
      cfg.event_mapping.lookup en = some refs →
      getPoliciesForEvent tid en m = groupBySourceFile refs ∧
      getPoliciesForEventXacct tid en m =
        .files (pyDedup (refs.map (fun r => stripYml r.source_file)))) ∧
    ((m.account_mapping.lookup tid).bind
        (fun cfg => cfg.event_mapping.lookup en) = none →
      getPoliciesForEvent tid en m = [] ∧
      getPoliciesForEventXacct tid en m =
        .byFile ((m.event_mapping.lookup en).elim [] groupBySourceFile)) := by
  constructor
  · intro cfg refs hcfg hrefs
    constructor
    · unfold getPoliciesForEvent
      simp only [hcfg, hrefs]
    · unfold getPoliciesForEventXacct
      simp only [hcfg, hrefs]
  · intro h
    cases hcfg : m.account_mapping.lookup tid with
    | none =>
      constructor
      · unfold getPoliciesForEvent
        simp only [hcfg]
      · unfold getPoliciesForEventXacct
        cases hg : m.event_mapping.lookup en <;> simp only [hcfg, hg, Option.elim]
    | some cfg =>
      rw [hcfg] at h
      simp only [Option.some_bind] at h
      constructor
      · unfold getPoliciesForEvent
        simp only [hcfg, h]
      · unfold getPoliciesForEventXacct
        cases hg : m.event_mapping.lookup en <;> simp only [hcfg, h, hg, Option.elim]

/-- C1 witness: the amended resolution theorem applied to a concrete
mapping, covering both the tenant-hit branch and the global-fallback
branch. -/
theorem policy_resolution_two_tier_amended_witness :
    getPoliciesForEvent "222233334444" "CreateBucket"
      ⟨[("CreateBucket", [⟨"g.yml", "gp"⟩])],
       [("222233334444", ⟨some "tenant-a", [("CreateBucket", [⟨"a.yml", "p1"⟩, ⟨"a.yml", "p2"⟩])]⟩)]⟩
      = [("a", ["p1", "p2"])] ∧
    getPoliciesForEventXacct "999988887777" "CreateBucket"
      ⟨[("CreateBucket", [⟨"g.yml", "gp"⟩])],
       [("222233334444", ⟨some "tenant-a", [("CreateBucket", [⟨"a.yml", "p1"⟩, ⟨"a.yml", "p2"⟩])]⟩)]⟩
      = .byFile [("g", ["gp"])] := by
  constructor
  · have h := (policy_resolution_two_tier_amended "222233334444" "CreateBucket"
      ⟨[("CreateBucket", [⟨"g.yml", "gp"⟩])],
       [("222233334444", ⟨some "tenant-a", [("CreateBucket", [⟨"a.yml", "p1"⟩, ⟨"a.yml", "p2"⟩])]⟩)]⟩).1
      ⟨some "tenant-a", [("CreateBucket", [⟨"a.yml", "p1"⟩, ⟨"a.yml", "p2"⟩])]⟩
      [⟨"a.yml", "p1"⟩, ⟨"a.yml", "p2"⟩] (by decide) (by decide)
    rw [h.1]; decide
  · have h := (policy_resolution_two_tier_amended "999988887777" "CreateBucket"
      ⟨[("CreateBucket", [⟨"g.yml", "gp"⟩])],
       [("222233334444", ⟨some "tenant-a", [("CreateBucket", [⟨"a.yml", "p1"⟩, ⟨"a.yml", "p2"⟩])]⟩)]⟩).2
      (by decide)
    rw [h.2]; decide

end Custodian
